import Mathlib

/-!
Verification of the Secure DFU client core (`src/api/dfu/dfuTransport.js`,
`src/api/dfu.js`) against its natural-language specification.

Bytes are modelled as `Nat` (values 0..255 on the wire, but nothing below
depends on the bound), byte arrays as `List Nat`.  JavaScript numbers that
can go negative (the rolled-back start offset computed by
`_getFirmwareState`) are modelled as `Int`, and `Array.prototype.slice`
with its negative-index clamping is modelled explicitly.
-/

namespace DfuSpec

/-- One step of the bitwise CRC-32 update: shift right, conditionally XOR
the reflected IEEE 802.3 polynomial.  `n` is the number of remaining bit
iterations. -/
def crc32Aux : Nat → Nat → Nat
  | c, 0 => c
  | c, n + 1 => crc32Aux (if c % 2 = 1 then (c / 2) ^^^ 0xEDB88320 else c / 2) n

/-- CRC-32 update by a single byte (8 bit iterations). -/
def crc32Byte (c b : Nat) : Nat := crc32Aux (c ^^^ (b % 256)) 8

/-- Rolling CRC-32 as implemented by the `crc` npm package used in
`dfuTransport.js`: `crc.crc32(data, previous)` re-inverts the previous
final value, folds the bytes, and inverts again (initial 0xFFFFFFFF,
XOR-out 0xFFFFFFFF). -/
def crc32Update (previous : Nat) (data : List Nat) : Nat :=
  (data.foldl crc32Byte (previous ^^^ 0xFFFFFFFF)) ^^^ 0xFFFFFFFF

/-- `crc.crc32(data)` — whole-buffer CRC-32 (previous value 0). -/
def crc32 (data : List Nat) : Nat := crc32Update 0 data

/-- Clamp a JavaScript slice index to `[0, len]`: negative indices count
from the end, as in `Array.prototype.slice`. -/
def jsClamp (len : Nat) (i : Int) : Nat :=
  if i < 0 then ((len : Int) + i).toNat else min i.toNat len

/-- `data.slice(s, e)` for non-negative indices. -/
def jsSlice (data : List Nat) (s e : Nat) : List Nat :=
  (data.drop s).take (e - s)

/-- `data.slice(s, e)` for arbitrary (possibly negative) indices. -/
def jsSliceI (data : List Nat) (s e : Int) : List Nat :=
  (data.take (jsClamp data.length e)).drop (jsClamp data.length s)

/-- `data.slice(s)` for an arbitrary (possibly negative) index. -/
def jsDropI (data : List Nat) (s : Int) : List Nat :=
  data.drop (jsClamp data.length s)

/-- Modelled from the spec: `splitArray` (`src/api/util/arrayUtil.js` is
absent from `src/`).  Spec §3: "for a payload of length L and maximum size
M, the payload is partitioned into ⌈L/M⌉ objects of lengths
`M, M, …, (L mod M or M)`". -/
def splitArray (data : List Nat) (size : Nat) : List (List Nat) :=
  if h : size = 0 ∨ data = [] then []
  else data.take size :: splitArray (data.drop size) size
termination_by data.length
decreasing_by
  push_neg at h
  have hd : 0 < data.length := List.length_pos.mpr h.2
  simp only [List.length_drop]
  omega

/-- The `SELECT` response `(maximumSize, offset, crc32)` decoded by
`ControlPointService.selectObject`. -/
structure SelectResponse where
  maximumSize : Nat
  offset : Nat
  crc32 : Nat
  deriving DecidableEq

/-- The record returned by `DfuTransport._getFirmwareState`. -/
structure FirmwareState where
  offset : Int
  crc32 : Nat
  objects : List (List Nat)
  partialObject : List Nat
  deriving DecidableEq

/-- `DfuTransport._getRemainingPartialObject(data, maximumSize, offset)`
(dfuTransport.js lines 227-233). -/
def getRemainingPartialObject (data : List Nat) (maximumSize offset : Nat) : List Nat :=
  let remainder := offset % maximumSize
  if offset = 0 ∨ remainder = 0 ∨ offset = data.length then []
  else jsSlice data offset (offset + maximumSize - remainder)

/-- `DfuTransport._canResumePartiallyWrittenObject(data, offset, crc32)`
(dfuTransport.js lines 235-240). -/
def canResumePartiallyWrittenObject (data : List Nat) (offset crc32v : Nat) : Bool :=
  if offset = 0 ∨ data.length < offset ∨ crc32v ≠ crc32 (data.take offset) then false
  else true

/-- `DfuTransport._getFirmwareState(firmware, selectResponse)`
(dfuTransport.js lines 160-179).  The JavaScript mutates `startOffset`,
`startCrc32` and `partialObject` inside one `if`; here the same condition
(`rolledBack`) selects each value.  `startOffset` is an `Int` because the
JavaScript expression `offset - maximumSize + partialObject.length` can go
negative. -/
def getFirmwareState (firmware : List Nat) (resp : SelectResponse) : FirmwareState :=
  let partial0 := getRemainingPartialObject firmware resp.maximumSize resp.offset
  let rolledBack : Bool :=
    decide (0 < partial0.length) &&
      ! canResumePartiallyWrittenObject firmware resp.offset resp.crc32
  let startOffset : Int :=
    if rolledBack then (resp.offset : Int) - (resp.maximumSize : Int) + (partial0.length : Int)
    else (resp.offset : Int)
  let startCrc32 : Nat :=
    if rolledBack then crc32 (jsSliceI firmware 0 startOffset) else resp.crc32
  let partialObject : List Nat := if rolledBack then [] else partial0
  let dataToSend := jsDropI firmware (startOffset + (partialObject.length : Int))
  { offset := startOffset
    crc32 := startCrc32
    objects := splitArray dataToSend resp.maximumSize
    partialObject := partialObject }

/-- Modelled from the spec: `ObjectType.COMMAND`
(`src/api/dfu/dfuConstants.js` is absent from `src/`); spec §3/§6:
`Command` has value 0x01 and carries an init packet. -/
def COMMAND : Nat := 0x01

/-- Modelled from the spec: `ObjectType.DATA`
(`src/api/dfu/dfuConstants.js` is absent from `src/`); spec §3/§6:
`Data` has value 0x02 and carries firmware. -/
def DATA : Nat := 0x02

/-- Modelled from the spec: the `ErrorCode` enum
(`src/api/dfu/dfuConstants.js` is absent from `src/`); spec §7 lists the
error kinds used by the transport. -/
inductive DfuError where
  | ABORTED
  | NOTIFICATION_TIMEOUT
  | NOTIFICATION_START_ERROR
  | NOTIFICATION_STOP_ERROR
  | INVALID_OFFSET
  | INVALID_CRC
  | INIT_PACKET_TOO_LARGE
  | OPERATION_FAILED
  deriving DecidableEq

/-- Observable commands / adapter calls the transport issues, in order. -/
inductive Action where
  | startNotif
  | stopNotif
  | select (objectType : Nat)
  | create (objectType : Nat) (size : Nat)
  | writeObj (data : List Nat) (objectType : Nat) (offset : Int) (crc : Nat)
  | calcCrc
  | execute
  deriving DecidableEq

/-- Transfer progress `(offset, crc32)`; `offset` is an `Int` since the
seed can come from the (possibly negative) rolled-back start offset. -/
structure Progress where
  offset : Int
  crc32 : Nat
  deriving DecidableEq

/-- `DfuTransport._validateProgress(progressInfo)` applied to the
`CALCULATE_CRC` response (dfuTransport.js lines 249-262): one `calcCrc`
command, then offset compared before CRC. -/
def validateProgress (p resp : Progress) : List Action × Except DfuError Unit :=
  ([Action.calcCrc],
    if p.offset ≠ resp.offset then .error .INVALID_OFFSET
    else if p.crc32 ≠ resp.crc32 then .error .INVALID_CRC
    else .ok ())

/-- `DfuTransport._writeObject` (dfuTransport.js lines 209-216) from the
point where the `ObjectWriter` has returned `progress` `p`, with `resp`
the target's `CALCULATE_CRC` response: validate, then `EXECUTE`, then
return the writer's progress unchanged. -/
def writeObjectStep (p resp : Progress) : List Action × Except DfuError Progress :=
  match (validateProgress p resp).2 with
  | .error e => ((validateProgress p resp).1, .error e)
  | .ok _ => ((validateProgress p resp).1 ++ [Action.execute], .ok p)

/-- `MAX_RETRIES` (dfuTransport.js line 10). -/
def MAX_RETRIES : Nat := 3

/-- `DfuTransport._shouldRetry(attempts, error)` (dfuTransport.js lines
218-225). -/
def shouldRetry (attempts : Nat) (e : DfuError) : Bool :=
  if attempts < MAX_RETRIES ∧ e ≠ .ABORTED ∧ e ≠ .NOTIFICATION_TIMEOUT then true
  else false

/-- The `tryWrite` loop inside `DfuTransport._createAndWriteObject`
(dfuTransport.js lines 189-207).  `outcome n` is the result of the
`(n+1)`-th CREATE-plus-write attempt (supplied by the environment:
target responses and writer behaviour); on failure the attempt counter is
incremented and the whole attempt is retried when `_shouldRetry` says so,
otherwise the error is propagated. -/
def tryWrite (outcome : Nat → Except DfuError Progress) (attempts : Nat) :
    Except DfuError Progress :=
  match outcome attempts with
  | .ok p => .ok p
  | .error e =>
    if h : shouldRetry (attempts + 1) e = true then tryWrite outcome (attempts + 1)
    else .error e
termination_by MAX_RETRIES - attempts
decreasing_by
  simp only [shouldRetry, MAX_RETRIES] at h ⊢
  split at h
  · omega
  · exact absurd h (by simp)

/-- `DfuTransport._createAndWriteObject` starts `tryWrite` with the
attempt counter at 0. -/
def createAndWriteObject (outcome : Nat → Except DfuError Progress) :
    Except DfuError Progress :=
  tryWrite outcome 0

/-- `DfuTransport._writeObject(data, type, offset, crc32)` on the
success path of a fresh transfer, as a trace.  The `ObjectWriter` is
modelled from the spec (`src/api/dfu/dfuObjectWriter.js` is absent from
`src/`); spec §8 invariant 1: a successful write returns
`(offset + len(bytes), crc32_update(crc_in, bytes))`.  The target's
`CALCULATE_CRC` response is taken to match the writer's progress (fresh
success scenario), so validation passes and `EXECUTE` follows. -/
def writeObjectT (data : List Nat) (objectType : Nat) (offset : Int) (c : Nat) :
    List Action × Progress :=
  let p : Progress := ⟨offset + (data.length : Int), crc32Update c data⟩
  (Action.writeObj data objectType offset c :: (writeObjectStep p p).1, p)

/-- One `CREATE(type, data.length)` followed by the write-object
procedure — the body of a successful `tryWrite` attempt in
`DfuTransport._createAndWriteObject` (dfuTransport.js lines 192-195). -/
def createAndWriteObjectT (data : List Nat) (objectType : Nat) (offset : Int) (c : Nat) :
    List Action × Progress :=
  let w := writeObjectT data objectType offset c
  (Action.create objectType data.length :: w.1, w.2)

/-- `DfuTransport._createAndWriteObjects(objects, type, offset, crc32)`
(dfuTransport.js lines 181-187): the promise `reduce` chain threads each
object's returned progress into the next create-and-write. -/
def createAndWriteObjectsT :
    List (List Nat) → Nat → Int → Nat → List Action × Progress
  | [], _, offset, c => ([], ⟨offset, c⟩)
  | obj :: rest, objectType, offset, c =>
    let r := createAndWriteObjectT obj objectType offset c
    let rr := createAndWriteObjectsT rest objectType r.2.offset r.2.crc32
    (r.1 ++ rr.1, rr.2)

/-- `DfuTransport.sendFirmware(firmware)` (dfuTransport.js lines 63-78)
on the success path, as a trace: `SELECT(Data)` answered by `resp`, then
either resume the partial object and create-and-write the rest, or
create-and-write all objects. -/
def sendFirmwareT (firmware : List Nat) (resp : SelectResponse) : List Action :=
  let st := getFirmwareState firmware resp
  Action.select DATA ::
    (if 0 < st.partialObject.length then
      let w := writeObjectT st.partialObject DATA st.offset st.crc32
      w.1 ++ (createAndWriteObjectsT st.objects DATA w.2.offset w.2.crc32).1
    else
      (createAndWriteObjectsT st.objects DATA st.offset st.crc32).1)

/-- Number of `EXECUTE` commands in a trace. -/
def countExecute : List Action → Nat
  | [] => 0
  | Action.execute :: rest => countExecute rest + 1
  | _ :: rest => countExecute rest

/-- `DfuTransport.sendInitPacket(initPacket)` (dfuTransport.js lines
41-55) from the point where `SELECT(Command)` was answered by `resp`:
the size check, then either resume (no CREATE) or create-and-write the
whole packet.  The create branch's write seed is modelled from the spec
(`src/api/dfu/dfuObjectWriter.js` is absent from `src/`): spec §4.3
Command flow step 5, `write_object(init_packet, Command, 0, 0)` — the
JavaScript passes no seed arguments and the writer defaults them. -/
def sendInitPacketTrace (initPacket : List Nat) (resp : SelectResponse) :
    Except DfuError (List Action) :=
  if resp.maximumSize < initPacket.length then .error .INIT_PACKET_TOO_LARGE
  else if canResumePartiallyWrittenObject initPacket resp.offset resp.crc32 then
    .ok [Action.writeObj (initPacket.drop resp.offset) COMMAND (resp.offset : Int) resp.crc32]
  else
    .ok [Action.create COMMAND initPacket.length,
         Action.writeObj initPacket COMMAND 0 0]

/-- The transport's open/closed state: the only field the source keeps is
`this._isOpen`, set to `false` in the constructor (dfuTransport.js line
32) and never assigned anywhere else. -/
structure TransportState where
  isOpen : Bool
  deriving DecidableEq

/-- `new DfuTransport(...)` — the constructor sets `_isOpen = false`. -/
def newTransport : TransportState := ⟨false⟩

/-- `DfuTransport._open()` (dfuTransport.js lines 138-148): if `_isOpen`
is set, do nothing; otherwise start control-point notifications.  The
source never assigns `_isOpen = true`, so the state is returned
unchanged. -/
def openTransport (s : TransportState) : List Action × TransportState :=
  if s.isOpen then ([], s) else ([Action.startNotif], s)

/-- `DfuTransport.close()` (dfuTransport.js lines 119-128): if `_isOpen`
is unset, resolve immediately; otherwise stop control-point
notifications.  The source never assigns `_isOpen = false` here
either. -/
def closeTransport (s : TransportState) : List Action × TransportState :=
  if s.isOpen then ([Action.stopNotif], s) else ([], s)

/-- A manifest entry `{dat_file, bin_file}` (dfu.js manifest format
comment, lines 354-367). -/
structure ManifestEntry where
  dat_file : String
  bin_file : String
  deriving DecidableEq

/-- The parsed `manifest` object: slot name to entry, in JSON key
order. -/
abbrev Manifest : Type := List (String × ManifestEntry)

/-- JavaScript property lookup `manifest[updateType]` on the parsed
object. -/
def lookupSlot (m : Manifest) (slot : String) : Option ManifestEntry :=
  (m.find? (fun kv => kv.1 == slot)).map (fun kv => kv.2)

/-- The fixed iteration order of `_fetchUpdates` (dfu.js line 176):
`['softdevice', 'bootloader', 'softdevice_bootloader', 'application']`. -/
def slotOrder : List String :=
  ["softdevice", "bootloader", "softdevice_bootloader", "application"]

/-- `Dfu._fetchUpdates` (dfu.js lines 152-184) restricted to which
updates are produced and in which order: the promise chain walks
`slotOrder`, pushing an update for each slot present in the manifest.
The update is identified here by its manifest entry: the payload
accessors the source builds are lambdas closing over
`update['dat_file']` / `update['bin_file']` that are never invoked
(they are passed to `Promise.all` as plain functions), so the zip is
never consulted. -/
def fetchUpdates (m : Manifest) : List ManifestEntry :=
  slotOrder.filterMap (lookupSlot m)

/-- Errors observable from the package-reading pipeline.
`PACKAGE_INVALID` is included because the specification names it; the
source never produces it. -/
inductive PkgError where
  | TYPE_ERROR
  | SYNTAX_ERROR
  | PACKAGE_INVALID
  deriving DecidableEq

/-- A loaded ZIP archive, abstracted to what `dfu.js` inspects: the file
names present, and the outcome of extracting and parsing
`manifest.json` (`none` = no such file; `some none` = present but not
valid JSON; `some (some m)` = parses to manifest `m`). -/
structure ZipArchive where
  files : List String
  manifestJson : Option (Option Manifest)

/-- `Dfu.getManifest` after the zip is loaded (dfu.js lines 328-351):
`zip.file("manifest.json")` is `null` when the entry is missing, so
`.async("string")` throws a `TypeError`; `JSON.parse` throwing is caught
and the raw `SyntaxError` is passed to the callback.  Neither path
produces `PACKAGE_INVALID`. -/
def getManifestM (z : ZipArchive) : Except PkgError Manifest :=
  match z.manifestJson with
  | none => .error .TYPE_ERROR
  | some none => .error .SYNTAX_ERROR
  | some (some m) => .ok m

/-- The whole package-reading pipeline of `_fetchUpdates`: load the
manifest, then produce the updates.  The referenced `dat_file` /
`bin_file` names are never looked up in `z.files` — faithful to the
uninvoked lambdas in dfu.js lines 164-165. -/
def fetchUpdatesM (z : ZipArchive) : Except PkgError (List ManifestEntry) :=
  (getManifestM z).map fetchUpdates

/-- A JavaScript value as far as `getManifest`'s argument validation
observes it: `undefined`, a string, or anything else. -/
inductive JSValue where
  | undef
  | str (s : String)
  | other
  deriving DecidableEq

/-- `typeof zipFilePath === "string"`. -/
def isString : JSValue → Bool
  | .str _ => true
  | _ => false

/-- `zipFilePath.length` as observed by the truthiness test (non-strings
never reach it: the `typeof` check short-circuits). -/
def jsLength : JSValue → Nat
  | .str s => s.length
  | _ => 0

/-- I/O steps of `getManifest` relevant to claim C10. -/
inductive IOAction where
  | readFile
  | callbackCall
  deriving DecidableEq

/-- `Dfu.getManifest(zipFilePath, callback)` argument handling (dfu.js
lines 321-325): the two synchronous throws happen before `_loadZip` is
called, so a thrown case performs no file I/O and never invokes the
callback.  Returns the I/O actions performed and the thrown message, if
any. -/
def getManifestRun (v : JSValue) : List IOAction × Option String :=
  if v = JSValue.undef then ([], some "Missing argument zipFilePath.")
  else if isString v = false ∨ jsLength v = 0 then
    ([], some "zipFilePath must be a non-empty string.")
  else ([IOAction.readFile, IOAction.callbackCall], none)

/-- Decidable equality for `Except`, so concrete traces and results can be
compared by `decide`. -/
instance instDecEqExcept {ε α : Type} [DecidableEq ε] [DecidableEq α] :
    DecidableEq (Except ε α)
  | .ok a, .ok b =>
    if h : a = b then isTrue (congrArg Except.ok h)
    else isFalse (fun hc => h (Except.ok.inj hc))
  | .ok _, .error _ => isFalse (fun hc => Except.noConfusion hc)
  | .error _, .ok _ => isFalse (fun hc => Except.noConfusion hc)
  | .error e, .error f =>
    if h : e = f then isTrue (congrArg Except.error h)
    else isFalse (fun hc => h (Except.error.inj hc))

/-- `_canResumePartiallyWrittenObject` succeeds exactly on the spec's
resume condition `0 < offset ≤ len(data)` with a matching whole-prefix
CRC. -/
theorem canResume_iff (data : List Nat) (offset c : Nat) :
    canResumePartiallyWrittenObject data offset c = true ↔
      (0 < offset ∧ offset ≤ data.length ∧ c = crc32 (data.take offset)) := by
  unfold canResumePartiallyWrittenObject
  split_ifs with h
  · simp only [Bool.false_eq_true, false_iff]
    rintro ⟨h1, h2, h3⟩
    rcases h with h | h | h
    · omega
    · omega
    · exact h h3
  · push_neg at h
    simp only [true_iff]
    exact ⟨Nat.pos_of_ne_zero h.1, h.2.1, h.2.2⟩

/-- C7: the remaining partial object is
`firmware[offset .. offset + max_size - (offset mod max_size)]` exactly
when `offset ∉ {0, len(firmware)}` and `offset mod max_size ≠ 0`, and
empty otherwise. -/
theorem remainingPartialObject_spec (data : List Nat) (maximumSize offset : Nat) :
    getRemainingPartialObject data maximumSize offset =
      if offset ≠ 0 ∧ offset ≠ data.length ∧ offset % maximumSize ≠ 0 then
        jsSlice data offset (offset + maximumSize - offset % maximumSize)
      else [] := by
  simp only [getRemainingPartialObject]
  by_cases h : offset = 0 ∨ offset % maximumSize = 0 ∨ offset = data.length
  · rw [if_pos h, if_neg (by tauto)]
  · rw [if_neg h, if_pos (by tauto)]

/-- C1: when the computed partial object is non-empty and the target's
CRC does not match `crc32(firmware[0..offset])`, `_getFirmwareState`
rolls back: `start_offset = offset - max_size + len(partial)`,
`start_crc = crc32(firmware[0..start_offset])` (JavaScript slice
semantics), an empty partial object, and the objects re-split from
`start_offset`. -/
theorem firmwareState_rollback (fw : List Nat) (resp : SelectResponse)
    (hp : 0 < (getRemainingPartialObject fw resp.maximumSize resp.offset).length)
    (hc : resp.crc32 ≠ crc32 (fw.take resp.offset)) :
    (getFirmwareState fw resp).partialObject = [] ∧
    (getFirmwareState fw resp).offset =
      (resp.offset : Int) - (resp.maximumSize : Int) +
        ((getRemainingPartialObject fw resp.maximumSize resp.offset).length : Int) ∧
    (getFirmwareState fw resp).crc32 =
      crc32 (jsSliceI fw 0 ((resp.offset : Int) - (resp.maximumSize : Int) +
        ((getRemainingPartialObject fw resp.maximumSize resp.offset).length : Int))) ∧
    (getFirmwareState fw resp).objects =
      splitArray (jsDropI fw ((getFirmwareState fw resp).offset)) resp.maximumSize := by
  have hres : canResumePartiallyWrittenObject fw resp.offset resp.crc32 = false := by
    unfold canResumePartiallyWrittenObject
    rw [if_pos (Or.inr (Or.inr hc))]
  simp [getFirmwareState, hres, hp]

set_option maxRecDepth 8000 in
/-- C1 witness: firmware `0..9`, `SELECT → (4, 6, 0)` with
`crc32(fw[0..6]) ≠ 0`: rollback to offset `6 - 4 + 2 = 4`. -/
theorem firmwareState_rollback_witness :
    (getFirmwareState (List.range 10) ⟨4, 6, 0⟩).partialObject = [] ∧
    (getFirmwareState (List.range 10) ⟨4, 6, 0⟩).offset =
      (6 : Int) - (4 : Int) + ((getRemainingPartialObject (List.range 10) 4 6).length : Int) ∧
    (getFirmwareState (List.range 10) ⟨4, 6, 0⟩).crc32 =
      crc32 (jsSliceI (List.range 10) 0
        ((6 : Int) - (4 : Int) + ((getRemainingPartialObject (List.range 10) 4 6).length : Int))) ∧
    (getFirmwareState (List.range 10) ⟨4, 6, 0⟩).objects =
      splitArray (jsDropI (List.range 10) ((getFirmwareState (List.range 10) ⟨4, 6, 0⟩).offset)) 4 :=
  firmwareState_rollback (List.range 10) ⟨4, 6, 0⟩ (by decide) (by decide)

/-- C3: the source never assigns `_isOpen` after the constructor, so the
transport never becomes Open: the first notification-requiring operation
starts notifications but leaves `isOpen = false`, a second one starts
them again, and `close()` after an open stops nothing — contradicting
both the claim and `close()`'s own doc comment. -/
theorem transport_never_opens :
    (openTransport newTransport).1 = [Action.startNotif] ∧
    (openTransport newTransport).2.isOpen = false ∧
    (openTransport (openTransport newTransport).2).1 = [Action.startNotif] ∧
    (closeTransport (openTransport newTransport).2).1 = [] := by
  decide

/-- C5: after the writer returns progress `p` and the target answers the
`CALCULATE_CRC` with `resp`, an offset mismatch fails with
`INVALID_OFFSET`, a CRC mismatch with `INVALID_CRC`, and only when both
match is `EXECUTE` issued, with `p` returned unchanged. -/
theorem writeObject_validation (p resp : Progress) :
    (p.offset ≠ resp.offset →
      writeObjectStep p resp = ([Action.calcCrc], .error .INVALID_OFFSET)) ∧
    (p.offset = resp.offset → p.crc32 ≠ resp.crc32 →
      writeObjectStep p resp = ([Action.calcCrc], .error .INVALID_CRC)) ∧
    (p.offset = resp.offset → p.crc32 = resp.crc32 →
      writeObjectStep p resp = ([Action.calcCrc, Action.execute], .ok p)) := by
  refine ⟨fun h => ?_, fun h1 h2 => ?_, fun h1 h2 => ?_⟩
  · simp [writeObjectStep, validateProgress, h]
  · simp [writeObjectStep, validateProgress, h1, h2]
  · simp [writeObjectStep, validateProgress, h1, h2]

/-- C5 witness: matching offset, mismatching CRC fails `INVALID_CRC`. -/
theorem writeObject_validation_witness :
    writeObjectStep ⟨0, 1⟩ ⟨0, 2⟩ = ([Action.calcCrc], .error .INVALID_CRC) :=
  (writeObject_validation ⟨0, 1⟩ ⟨0, 2⟩).2.1 rfl (by decide)

/-- C4: after a failed CREATE-plus-write attempt the counter is
incremented, and the whole attempt is retried exactly when the
incremented count is below `MAX_RETRIES = 3` and the error is neither
`ABORTED` nor `NOTIFICATION_TIMEOUT`; otherwise the error propagates. -/
theorem createAndWrite_retry_policy (outcome : Nat → Except DfuError Progress)
    (attempts : Nat) (e : DfuError) (h : outcome attempts = .error e) :
    tryWrite outcome attempts =
      if attempts + 1 < MAX_RETRIES ∧ e ≠ .ABORTED ∧ e ≠ .NOTIFICATION_TIMEOUT then
        tryWrite outcome (attempts + 1)
      else .error e := by
  rw [tryWrite, h]
  show (if hh : shouldRetry (attempts + 1) e = true then tryWrite outcome (attempts + 1)
      else Except.error e) =
    if attempts + 1 < MAX_RETRIES ∧ e ≠ DfuError.ABORTED ∧ e ≠ DfuError.NOTIFICATION_TIMEOUT then
      tryWrite outcome (attempts + 1)
    else Except.error e
  by_cases hr : shouldRetry (attempts + 1) e = true
  · rw [dif_pos hr]
    have hcond := hr
    unfold shouldRetry at hcond
    split_ifs at hcond with hc
    rw [if_pos hc]
  · rw [dif_neg hr]
    have hcond : ¬ (attempts + 1 < MAX_RETRIES ∧ e ≠ .ABORTED ∧ e ≠ .NOTIFICATION_TIMEOUT) := by
      intro hc
      exact hr (by unfold shouldRetry; rw [if_pos hc])
    rw [if_neg hcond]

/-- C4 witness: a first-attempt `OPERATION_FAILED` is retried (counter 0
becomes 1, condition `1 < 3` holds). -/
theorem createAndWrite_retry_policy_witness :
    tryWrite (fun _ => .error DfuError.OPERATION_FAILED) 0 =
      tryWrite (fun _ => .error DfuError.OPERATION_FAILED) 1 := by
  have h := createAndWrite_retry_policy (fun _ => .error DfuError.OPERATION_FAILED) 0
    DfuError.OPERATION_FAILED rfl
  rw [if_pos (by decide)] at h
  exact h

/-- C2 counterexample: an init packet of 2 bytes against
`SELECT → (max_size 1, offset 1, crc32([7]))` satisfies the claim's
resume condition (`0 < 1 ≤ 2` and matching CRC), yet `sendInitPacket`
fails with `INIT_PACKET_TOO_LARGE` before any CREATE or write — the size
check at dfuTransport.js line 48 runs first. -/
theorem sendInitPacket_size_counterexample :
    (0 < 1 ∧ 1 ≤ ([7, 7] : List Nat).length ∧
      crc32 [7] = crc32 (([7, 7] : List Nat).take 1)) ∧
    sendInitPacketTrace [7, 7] ⟨1, 1, crc32 [7]⟩ = .error .INIT_PACKET_TOO_LARGE ∧
    sendInitPacketTrace [7, 7] ⟨1, 1, crc32 [7]⟩ ≠
      .ok [Action.writeObj (([7, 7] : List Nat).drop 1) COMMAND (1 : Int) (crc32 [7])] := by
  refine ⟨by decide, by decide, by decide⟩

/-- C2 (amended with `len(init_packet) ≤ max_size`): under that size
bound, if `0 < offset ≤ len(init_packet)` and the CRC matches the
written prefix, the trace is a single write of `init_packet[offset..]`
seeded with `(offset, crc32)` and contains no CREATE; otherwise it is
`CREATE(Command, len)` followed by a write of the whole packet seeded
with `(0, 0)`. -/
theorem sendInitPacket_resume_or_create (ip : List Nat) (resp : SelectResponse)
    (hsize : ip.length ≤ resp.maximumSize) :
    (0 < resp.offset ∧ resp.offset ≤ ip.length ∧ resp.crc32 = crc32 (ip.take resp.offset) →
      sendInitPacketTrace ip resp =
        .ok [Action.writeObj (ip.drop resp.offset) COMMAND (resp.offset : Int) resp.crc32]) ∧
    (¬ (0 < resp.offset ∧ resp.offset ≤ ip.length ∧ resp.crc32 = crc32 (ip.take resp.offset)) →
      sendInitPacketTrace ip resp =
        .ok [Action.create COMMAND ip.length, Action.writeObj ip COMMAND 0 0]) := by
  have hs : ¬ resp.maximumSize < ip.length := not_lt.mpr hsize
  constructor
  · intro h
    unfold sendInitPacketTrace
    rw [if_neg hs, if_pos ((canResume_iff ip resp.offset resp.crc32).mpr h)]
  · intro h
    unfold sendInitPacketTrace
    rw [if_neg hs,
      if_neg (fun hb => h ((canResume_iff ip resp.offset resp.crc32).mp hb))]

/-- C2 witness: init packet `[1,2,3,4]`, `SELECT → (256, 2, crc32 [1,2])`
resumes with a single write of the last two bytes and no CREATE. -/
theorem sendInitPacket_resume_or_create_witness :
    sendInitPacketTrace [1, 2, 3, 4] ⟨256, 2, crc32 [1, 2]⟩ =
      .ok [Action.writeObj [3, 4] COMMAND (2 : Int) (crc32 [1, 2])] := by
  have h := (sendInitPacket_resume_or_create [1, 2, 3, 4] ⟨256, 2, crc32 [1, 2]⟩
    (by decide)).1 ⟨by decide, by decide, rfl⟩
  simpa using h

/-- `countExecute` distributes over trace concatenation. -/
theorem countExecute_append (a b : List Action) :
    countExecute (a ++ b) = countExecute a + countExecute b := by
  induction a with
  | nil => simp [countExecute]
  | cons x rest ih => cases x <;> simp [countExecute, ih] <;> omega

/-- When the `CALCULATE_CRC` response matches the writer's progress,
validation passes and the step is `calcCrc` then `execute`. -/
theorem writeObjectStep_self (p : Progress) :
    writeObjectStep p p = ([Action.calcCrc, Action.execute], .ok p) := by
  simp [writeObjectStep, validateProgress]

/-- One successful create-and-write issues exactly one `EXECUTE`. -/
theorem countExecute_createAndWriteObjectT (data : List Nat) (t : Nat) (off : Int) (c : Nat) :
    countExecute (createAndWriteObjectT data t off c).1 = 1 := by
  simp [createAndWriteObjectT, writeObjectT, writeObjectStep_self, countExecute]

/-- The create-and-write chain issues one `EXECUTE` per object. -/
theorem countExecute_createAndWriteObjectsT (objs : List (List Nat)) :
    ∀ (t : Nat) (off : Int) (c : Nat),
      countExecute (createAndWriteObjectsT objs t off c).1 = objs.length := by
  induction objs with
  | nil => intro t off c; simp [createAndWriteObjectsT, countExecute]
  | cons obj rest ih =>
    intro t off c
    simp [createAndWriteObjectsT, countExecute_append,
      countExecute_createAndWriteObjectT, ih]
    omega

/-- `splitArray` produces `⌈L/M⌉` chunks (strong induction on the list
length). -/
theorem splitArray_length_aux (size : Nat) (hs : 0 < size) :
    ∀ (n : Nat) (data : List Nat), data.length ≤ n →
      (splitArray data size).length = (data.length + size - 1) / size := by
  intro n
  induction n with
  | zero =>
    intro data hd
    have hnil : data = [] := List.eq_nil_of_length_eq_zero (Nat.le_zero.mp hd)
    subst hnil
    rw [splitArray, dif_pos (Or.inr rfl)]
    simp [Nat.div_eq_of_lt (by omega : size - 1 < size)]
  | succ n ih =>
    intro data hd
    by_cases hnil : data = []
    · subst hnil
      rw [splitArray, dif_pos (Or.inr rfl)]
      simp [Nat.div_eq_of_lt (by omega : size - 1 < size)]
    · have hlen : 0 < data.length := List.length_pos.mpr hnil
      rw [splitArray, dif_neg (by push_neg; exact ⟨by omega, hnil⟩)]
      rw [List.length_cons, ih (data.drop size) (by simp [List.length_drop]; omega)]
      simp only [List.length_drop]
      rcases le_or_lt data.length size with hle | hlt
      · have h1 : data.length - size + size - 1 = size - 1 := by omega
        have h2 : data.length + size - 1 = (data.length - 1) + size := by omega
        rw [h1, h2, Nat.add_div_right _ hs,
          Nat.div_eq_of_lt (by omega : size - 1 < size),
          Nat.div_eq_of_lt (by omega : data.length - 1 < size)]
      · have h1 : data.length - size + size - 1 = data.length - 1 := by omega
        have h2 : data.length + size - 1 = (data.length - 1) + size := by omega
        rw [h1, h2, Nat.add_div_right _ hs]

/-- `splitArray` produces `⌈L/M⌉` chunks. -/
theorem splitArray_length (data : List Nat) (size : Nat) (hs : 0 < size) :
    (splitArray data size).length = (data.length + size - 1) / size :=
  splitArray_length_aux size hs data.length data le_rfl

/-- On a fresh target (`SELECT → (M, 0, 0)`), the firmware state is the
whole firmware split into objects of size `M`, with no partial object. -/
theorem getFirmwareState_fresh (fw : List Nat) (M : Nat) :
    getFirmwareState fw ⟨M, 0, 0⟩ =
      ⟨0, 0, splitArray fw M, []⟩ := by
  simp [getFirmwareState, getRemainingPartialObject, jsDropI, jsClamp]

/-- C6: a successful `sendFirmware` on a fresh target issues exactly
`⌈len(firmware)/max_size⌉` EXECUTE commands, one per object. -/
theorem sendFirmware_execute_count (fw : List Nat) (M : Nat) (hM : 0 < M) :
    countExecute (sendFirmwareT fw ⟨M, 0, 0⟩) = (fw.length + M - 1) / M := by
  rw [sendFirmwareT, getFirmwareState_fresh]
  show countExecute (createAndWriteObjectsT (splitArray fw M) DATA 0 0).1 = _
  rw [countExecute_createAndWriteObjectsT, splitArray_length fw M hM]

/-- C6 witness: 5 bytes with `max_size` 2 → 3 objects, 3 EXECUTEs. -/
theorem sendFirmware_execute_count_witness :
    countExecute (sendFirmwareT [1, 2, 3, 4, 5] ⟨2, 0, 0⟩) = 3 := by
  have h := sendFirmware_execute_count [1, 2, 3, 4, 5] 2 (by decide)
  norm_num at h
  exact h

/-- In an association list with distinct keys, a key determines its
entry. -/
theorem manifest_key_unique {m : Manifest} (hnd : (m.map Prod.fst).Nodup)
    {s : String} {a b : ManifestEntry} (ha : (s, a) ∈ m) (hb : (s, b) ∈ m) :
    a = b := by
  induction m with
  | nil => cases ha
  | cons kv rest ih =>
    rw [List.map_cons, List.nodup_cons] at hnd
    rcases List.mem_cons.mp ha with ha1 | ha2 <;>
      rcases List.mem_cons.mp hb with hb1 | hb2
    · rw [← ha1] at hb1
      exact (Prod.mk.injEq _ _ _ _ ▸ hb1).2.symm
    · exact absurd (List.mem_map_of_mem Prod.fst hb2)
        (by rw [← ha1] at hnd; exact hnd.1)
    · exact absurd (List.mem_map_of_mem Prod.fst ha2)
        (by rw [← hb1] at hnd; exact hnd.1)
    · exact ih hnd.2 ha2 hb2

/-- `lookupSlot` is invariant under reordering a manifest whose keys are
distinct. -/
theorem lookupSlot_perm {m m2 : Manifest} (hperm : List.Perm m m2)
    (hnd : (m.map Prod.fst).Nodup) (s : String) :
    lookupSlot m2 s = lookupSlot m s := by
  cases h : m.find? (fun kv => kv.1 == s) with
  | none =>
    have hnone : ∀ kv ∈ m2, ¬ (kv.1 == s) = true := fun kv hkv =>
      List.find?_eq_none.mp h kv (hperm.mem_iff.mpr hkv)
    unfold lookupSlot
    rw [h, List.find?_eq_none.mpr hnone]
  | some kv =>
    have hkv1 : kv.1 = s := by
      have := List.find?_some h
      simpa using this
    have hkvm : kv ∈ m2 := hperm.mem_iff.mp (List.mem_of_find?_eq_some h)
    cases h2 : m2.find? (fun x => x.1 == s) with
    | none =>
      exact absurd (by simpa [hkv1] using List.find?_eq_none.mp h2 kv hkvm) (fun p => p)
    | some kv2 =>
      have hkv21 : kv2.1 = s := by
        have := List.find?_some h2
        simpa using this
      have hkv2m : kv2 ∈ m := hperm.mem_iff.mpr (List.mem_of_find?_eq_some h2)
      have hmem2 : (s, kv2.2) ∈ m := by rw [← hkv21]; exact hkv2m
      have hmem1 : (s, kv.2) ∈ m := by
        rw [← hkv1]; exact List.mem_of_find?_eq_some h
      have heq : kv2.2 = kv.2 := manifest_key_unique hnd hmem2 hmem1
      unfold lookupSlot
      rw [h, h2]
      simp [heq]

/-- C9: for any manifest with distinct keys and any reordering of it,
the updates come out in the canonical slot order — softdevice,
bootloader, softdevice_bootloader, application — so the application
update is always last, regardless of manifest key order. -/
theorem fetchUpdates_canonical_order (m m2 : Manifest)
    (hnd : (m.map Prod.fst).Nodup) (hperm : List.Perm m m2) :
    fetchUpdates m2 =
      (lookupSlot m "softdevice").toList ++ (lookupSlot m "bootloader").toList ++
        (lookupSlot m "softdevice_bootloader").toList ++
        (lookupSlot m "application").toList := by
  have h : ∀ s, lookupSlot m2 s = lookupSlot m s := lookupSlot_perm hperm hnd
  rw [show fetchUpdates m2 = slotOrder.filterMap (lookupSlot m2) from rfl]
  simp only [slotOrder, List.filterMap_cons, List.filterMap_nil, h]
  cases lookupSlot m "softdevice" <;> cases lookupSlot m "bootloader" <;>
    cases lookupSlot m "softdevice_bootloader" <;>
    cases lookupSlot m "application" <;> simp

/-- C9 witness: a manifest listing `application` before `softdevice`
still yields the softdevice update first and the application update
last. -/
theorem fetchUpdates_canonical_order_witness :
    fetchUpdates [("application", ⟨"a.dat", "a.bin"⟩), ("softdevice", ⟨"s.dat", "s.bin"⟩)] =
      [⟨"s.dat", "s.bin"⟩, ⟨"a.dat", "a.bin"⟩] := by
  have h := fetchUpdates_canonical_order
    [("softdevice", ⟨"s.dat", "s.bin"⟩), ("application", ⟨"a.dat", "a.bin"⟩)]
    [("application", ⟨"a.dat", "a.bin"⟩), ("softdevice", ⟨"s.dat", "s.bin"⟩)]
    (by decide) (List.Perm.swap _ _ _)
  rw [h]
  decide

/-- C8: reading a package whose manifest references a `bin_file` absent
from the archive succeeds — the `zip.file` reads are wrapped in lambdas
that `_fetchUpdates` never invokes — and the other failure modes raise a
`TypeError` (missing `manifest.json`) or the raw `SyntaxError` (invalid
JSON), never `PACKAGE_INVALID`. -/
theorem fetchUpdates_missing_file_ok :
    fetchUpdatesM ⟨["manifest.json", "app.dat"],
        some (some [("application", ⟨"app.dat", "app.bin"⟩)])⟩ =
      .ok [⟨"app.dat", "app.bin"⟩] ∧
    "app.bin" ∉ ["manifest.json", "app.dat"] ∧
    getManifestM ⟨["firmware.bin"], none⟩ = .error .TYPE_ERROR ∧
    getManifestM ⟨["manifest.json"], some none⟩ = .error .SYNTAX_ERROR ∧
    (DfuSpec.PkgError.TYPE_ERROR ≠ .PACKAGE_INVALID ∧
      DfuSpec.PkgError.SYNTAX_ERROR ≠ .PACKAGE_INVALID) := by
  refine ⟨by decide, by decide, rfl, rfl, by decide, by decide⟩

/-- C10: `getManifest` validates its argument before any file I/O: an
`undefined` path throws `Missing argument zipFilePath.` and a
non-string or empty path throws `zipFilePath must be a non-empty
string.`; in both cases the I/O trace is empty, so the callback is never
invoked. -/
theorem getManifest_argument_validation (v : JSValue) :
    (v = JSValue.undef →
      getManifestRun v = ([], some "Missing argument zipFilePath.")) ∧
    (v ≠ JSValue.undef → (isString v = false ∨ jsLength v = 0) →
      getManifestRun v = ([], some "zipFilePath must be a non-empty string.")) := by
  constructor
  · intro h
    subst h
    rfl
  · intro h1 h2
    unfold getManifestRun
    rw [if_neg (by simpa using h1), if_pos h2]

/-- C10 witness: the empty string throws the non-empty-string message
with no I/O performed. -/
theorem getManifest_argument_validation_witness :
    getManifestRun (JSValue.str "") =
      ([], some "zipFilePath must be a non-empty string.") :=
  (getManifest_argument_validation (JSValue.str "")).2 (by decide) (by decide)

end DfuSpec
